import Mathlib

/-!
Verification of the AKU PDF text-extraction script (src/main.py).

The script wraps three external PDF libraries (PyPDF2, pdfplumber, PyMuPDF)
behind a `PDFTextExtractor` class.  The behaviour of the external libraries
and of the filesystem is modelled by an environment `Env`; the functions
below are shallow embeddings of the Python methods, faithful to the source:
each library call is a single field of `Env` that yields either the data the
library would return or the message of the exception it would raise, and the
Python `print` calls are threaded through as an explicit log.
-/

namespace AKU

/-- Python `str.strip()` whitespace set: space, tab, newline, carriage
return, vertical tab, form feed. -/
def isPyWS (c : Char) : Bool :=
  c = ' ' || c = '\t' || c = '\n' || c = '\r' || c = '\x0b' || c = '\x0c'

/-- Leading-whitespace removal on the character list. -/
def stripL (l : List Char) : List Char := l.dropWhile isPyWS

/-- Trailing-whitespace removal on the character list. -/
def stripR (l : List Char) : List Char := (l.reverse.dropWhile isPyWS).reverse

/-- Python `str.strip()`: removes whitespace from both ends. -/
def pyStrip (s : String) : String := ⟨stripR (stripL s.data)⟩

/-- Python `pathlib.PurePath.stem`: the file name without its suffix; the
suffix starts at the last dot, provided that dot is neither the first nor the
last character of the name. -/
def pyStem (name : String) : String :=
  let cs := name.data
  let rev := cs.reverse
  if rev.contains '.' then
    let k := rev.findIdx (fun c => c = '.')
    let i := cs.length - 1 - k
    if 0 < i ∧ i < cs.length - 1 then ⟨cs.take i⟩ else name
  else name

/-- What `PyPDF2.PdfReader` yields on a successful open: the per-page
`extract_text()` strings and the optional metadata dictionary
(`pdf_reader.metadata` is `None` when the document has no Info dictionary). -/
structure PyPdfDoc where
  pages : List String
  metadata : Option (List (String × String))
deriving DecidableEq, Repr

/-- Environment: the outcomes of each external-library call and filesystem
query, per path.  `Except.error msg` models the body of the corresponding
`try` block raising an exception with message `msg`. -/
structure Env where
  path_exists : String → Bool
  pypdf2 : String → Except String PyPdfDoc
  pdfplumber : String → Except String (List (Option String))
  pymupdf : String → Except String (List String)
  glob_pdfs : String → List String
  write_err : String → Option String

/-- Python exceptions raised by `extract_text` itself. -/
inductive PyErr where
  | fileNotFound (msg : String)
  | valueError (msg : String)
deriving DecidableEq, Repr

/-- Message carried by a raised exception (Python `str(e)`). -/
def PyErr.msg : PyErr → String
  | .fileNotFound m => m
  | .valueError m => m

/-- Embedding of `PDFTextExtractor.extract_with_pypdf2`: concatenates
`page.extract_text() + "\n"` over all pages and strips the result; any
exception is caught, logged and turned into `None`. -/
def extract_with_pypdf2 (env : Env) (pdf_path : String) :
    Option String × List String :=
  match env.pypdf2 pdf_path with
  | Except.ok doc =>
      let text := doc.pages.foldl (fun acc p => acc ++ p ++ "\n") ""
      (some (pyStrip text), [])
  | Except.error e => (none, ["Error with PyPDF2: " ++ e])

/-- Embedding of `PDFTextExtractor.extract_with_pdfplumber`: pages whose
`extract_text()` is falsy (`None` or the empty string) are skipped; any
exception is caught, logged and turned into `None`. -/
def extract_with_pdfplumber (env : Env) (pdf_path : String) :
    Option String × List String :=
  match env.pdfplumber pdf_path with
  | Except.ok pages =>
      let text := pages.foldl (fun acc p? =>
        match p? with
        | some p => if p = "" then acc else acc ++ p ++ "\n"
        | none => acc) ""
      (some (pyStrip text), [])
  | Except.error e => (none, ["Error with pdfplumber: " ++ e])

/-- Embedding of `PDFTextExtractor.extract_with_pymupdf`: concatenates
`page.get_text() + "\n"` over all pages and strips the result; any exception
is caught, logged and turned into `None`. -/
def extract_with_pymupdf (env : Env) (pdf_path : String) :
    Option String × List String :=
  match env.pymupdf pdf_path with
  | Except.ok pages =>
      let text := pages.foldl (fun acc p => acc ++ p ++ "\n") ""
      (some (pyStrip text), [])
  | Except.error e => (none, ["Error with PyMuPDF: " ++ e])

/-- Python truthiness of `text and text.strip()` for `text` a `str`-or-`None`
value: `text` must be non-`None`, non-empty, and non-empty after stripping. -/
def pyTruthyText : Option String → Bool
  | none => false
  | some t => (t != "") && (pyStrip t != "")

/-- The ordered strategy list built in `extract_text`'s auto branch. -/
def auto_methods :
    List (String × (Env → String → Option String × List String)) :=
  [("pdfplumber", extract_with_pdfplumber),
   ("pymupdf", extract_with_pymupdf),
   ("pypdf2", extract_with_pypdf2)]

/-- The `for method_name, method_func in methods` loop of the auto branch:
returns the first truthy strategy output (logging the success), and the empty
string once the list is exhausted. -/
def tryAuto (env : Env) (pdf_path : String) :
    List (String × (Env → String → Option String × List String)) →
      String × List String
  | [] => ("", ["All methods failed to extract text"])
  | (mname, mfunc) :: rest =>
      let r := mfunc env pdf_path
      let logHead := ("Trying " ++ mname ++ "...") :: r.2
      match r.1 with
      | some text =>
          if (text != "") && (pyStrip text != "") then
            (text, logHead ++ ["Successfully extracted text using " ++ mname])
          else
            let k := tryAuto env pdf_path rest
            (k.1, logHead ++ k.2)
      | none =>
          let k := tryAuto env pdf_path rest
          (k.1, logHead ++ k.2)

/-- Embedding of `PDFTextExtractor.extract_text`: the existence check runs
first; the auto branch runs the fallback loop and always produces a string;
an explicit method returns the library wrapper's output unchanged (so it can
be `None`); any other method name raises `ValueError`. -/
def extract_text (env : Env) (pdf_path : String) (method : String) :
    Except PyErr (Option String) × List String :=
  if !(env.path_exists pdf_path) then
    (Except.error (PyErr.fileNotFound ("PDF file not found: " ++ pdf_path)), [])
  else if method = "auto" then
    let r := tryAuto env pdf_path auto_methods
    (Except.ok (some r.1), r.2)
  else if method = "pypdf2" then
    let r := extract_with_pypdf2 env pdf_path
    (Except.ok r.1, r.2)
  else if method = "pdfplumber" then
    let r := extract_with_pdfplumber env pdf_path
    (Except.ok r.1, r.2)
  else if method = "pymupdf" then
    let r := extract_with_pymupdf env pdf_path
    (Except.ok r.1, r.2)
  else
    (Except.error (PyErr.valueError ("Unsupported method: " ++ method)), [])

/-- Python `dict` assignment `results[k] = v`: replaces the value in place if
the key is present, otherwise appends at the end (insertion order). -/
def dictSet (m : List (String × Option String)) (k : String)
    (v : Option String) : List (String × Option String) :=
  if m.any (fun p => p.1 == k) then
    m.map (fun p => if p.1 == k then (k, v) else p)
  else m ++ [(k, v)]

/-- One iteration of the `for pdf_file in pdf_files` loop of
`extract_from_directory`: yields the mapping value stored for this file, the
output files written, and the log lines printed.  The `except` branch stores
`""`; when the output write raises, the earlier `results[name] = text`
assignment is overwritten by the `except` branch's `results[name] = ""`.
`f.write(None)` would raise `TypeError`, also caught. -/
def process_pdf_file (env : Env) (directory_path : String)
    (output_dir : Option String) (fname : String) :
    Option String × List (String × String) × List String :=
  let path := directory_path ++ "/" ++ fname
  let r := extract_text env path "auto"
  let logs := ("Processing: " ++ fname) :: r.2
  match r.1 with
  | Except.error e =>
      (some "", [], logs ++ ["Failed to process " ++ fname ++ ": " ++ e.msg])
  | Except.ok t? =>
      match output_dir with
      | none => (t?, [], logs)
      | some d =>
          let outFile := d ++ "/" ++ pyStem fname ++ ".txt"
          match t? with
          | some t =>
              match env.write_err outFile with
              | none => (some t, [(outFile, t)], logs ++ ["Saved to: " ++ outFile])
              | some e =>
                  (some "", [],
                   logs ++ ["Failed to process " ++ fname ++ ": " ++ e])
          | none =>
              (some "", [],
               logs ++ ["Failed to process " ++ fname ++ ": TypeError"])

/-- Result of a batch run: the `results` dict, the output files written (path
and content), whether `os.makedirs` was invoked, and the printed log. -/
structure BatchOutcome where
  results : List (String × Option String)
  written : List (String × String)
  madeOutputDir : Bool
  log : List String
deriving Repr

/-- Loop body of `extract_from_directory`: store the mapping value, append
the written files and the printed lines. -/
def batch_step (env : Env) (directory_path : String)
    (output_dir : Option String) (acc : BatchOutcome) (fname : String) :
    BatchOutcome :=
  let r := process_pdf_file env directory_path output_dir fname
  { acc with
      results := dictSet acc.results fname r.1,
      written := acc.written ++ r.2.1,
      log := acc.log ++ r.2.2 }

/-- Embedding of `PDFTextExtractor.extract_from_directory`: globs `*.pdf`,
creates the output directory when one is configured, then processes each file
in turn, catching per-file exceptions. -/
def extract_from_directory (env : Env) (directory_path : String)
    (output_dir : Option String) : BatchOutcome :=
  let pdf_files := env.glob_pdfs directory_path
  let init : BatchOutcome :=
    { results := [], written := [], madeOutputDir := output_dir.isSome,
      log := [] }
  pdf_files.foldl (batch_step env directory_path output_dir) init

/-- The info dictionary built by `get_pdf_info`. -/
structure PdfInfo where
  num_pages : Nat
  title : String
  author : String
  subject : String
  creator : String
  producer : String
deriving DecidableEq, Repr

/-- Python `pdf_reader.metadata.get(key, 'N/A') if pdf_reader.metadata else 'N/A'`. -/
def metaGet (md : Option (List (String × String))) (key : String) : String :=
  match md with
  | some m => (m.lookup key).getD "N/A"
  | none => "N/A"

/-- Embedding of `PDFTextExtractor.get_pdf_info`: on a successful PyPDF2 read
returns the page count and the metadata lookups; on any exception logs and
returns `None`. -/
def get_pdf_info (env : Env) (pdf_path : String) :
    Option PdfInfo × List String :=
  match env.pypdf2 pdf_path with
  | Except.ok doc =>
      (some { num_pages := doc.pages.length,
              title := metaGet doc.metadata "/Title",
              author := metaGet doc.metadata "/Author",
              subject := metaGet doc.metadata "/Subject",
              creator := metaGet doc.metadata "/Creator",
              producer := metaGet doc.metadata "/Producer" }, [])
  | Except.error e => (none, ["Error getting PDF info: " ++ e])

/-- Modelled from the spec: the repository contains no parsing core, so the
Content-Stream Interpreter of §4.5 is modelled from the spec's words.  The
operators of interest: `BT`/`ET` delimit a text object, `Tj` shows a literal
string, `TJ` shows strings interleaved with numeric positioning adjustments,
`Td` moves the text position, and all other operators are skipped since they
do not affect text content. -/
inductive ContentOp where
  | beginText
  | endText
  | showText (s : String)
  | showTextAdj (items : List (String ⊕ Int))
  | moveText (tx ty : Int)
  | otherOp (nm : String)
deriving DecidableEq, Repr

/-- Modelled from the spec: the text contributed by a `TJ` array — its string
elements in order; the numeric elements only displace the position. -/
def adjText (items : List (String ⊕ Int)) : String :=
  items.foldl (fun acc it =>
    match it with
    | Sum.inl s => acc ++ s
    | Sum.inr _ => acc) ""

/-- Modelled from the spec: executing a decoded content stream and collecting
the text shown by the text-showing operators, in stream order; positioning
and other operators emit no text. -/
def interpretContent (ops : List ContentOp) : String :=
  ops.foldl (fun acc op =>
    match op with
    | ContentOp.showText s => acc ++ s
    | ContentOp.showTextAdj items => acc ++ adjText items
    | _ => acc) ""

/-- Modelled from the spec: a minimal PDF — a single page with a single
uncompressed content stream. -/
structure MinimalPDF where
  pageContent : List ContentOp
deriving DecidableEq, Repr

/-- Modelled from the spec: the minimal well-formed document whose only
content is one `Tj` operator showing the literal string `s` inside a text
object. -/
def minimalPDF (s : String) : MinimalPDF :=
  ⟨[ContentOp.beginText, ContentOp.showText s, ContentOp.endText]⟩

/-- Modelled from the spec: the Extraction Orchestrator on a single-page
document — the text of its one content stream. -/
def extractPageText (p : MinimalPDF) : String :=
  interpretContent p.pageContent

/-- Environment in which pdfplumber succeeds on `a.pdf` with one page of
text `hello`, PyMuPDF would also succeed, and PyPDF2 raises. -/
def envA : Env :=
  { path_exists := fun p => p == "a.pdf"
    pypdf2 := fun _ => Except.error "EOF marker not found"
    pdfplumber := fun _ => Except.ok [some "hello"]
    pymupdf := fun _ => Except.ok ["hello"]
    glob_pdfs := fun _ => []
    write_err := fun _ => none }

/-- Environment in which pdfplumber and PyPDF2 raise on every file while
PyMuPDF succeeds on `a.pdf` with the same text `hello` as `envA`. -/
def envB : Env :=
  { path_exists := fun p => p == "a.pdf"
    pypdf2 := fun _ => Except.error "read failed"
    pdfplumber := fun _ => Except.error "parse error"
    pymupdf := fun _ => Except.ok ["hello"]
    glob_pdfs := fun _ => []
    write_err := fun _ => none }

/-- Batch environment: directory `pdfs` lists `bad.pdf` (a broken symlink —
globbed but failing the `os.path.exists` check, so `extract_text` raises
`FileNotFoundError`) and `empty.pdf` (readable but with no extractable text,
so every strategy yields the empty string). -/
def envD : Env :=
  { path_exists := fun p => p == "pdfs/empty.pdf"
    pypdf2 := fun _ => Except.ok ⟨[], none⟩
    pdfplumber := fun _ => Except.ok []
    pymupdf := fun _ => Except.ok []
    glob_pdfs := fun d => if d == "pdfs" then ["bad.pdf", "empty.pdf"] else []
    write_err := fun _ => none }

/-- Environment whose PyPDF2 reader returns a one-page document with an Info
dictionary carrying title, author and producer. -/
def envE : Env :=
  { path_exists := fun _ => true
    pypdf2 := fun _ => Except.ok
      ⟨["page one"],
        some [("/Title", "T"), ("/Author", "A"), ("/Producer", "P")]⟩
    pdfplumber := fun _ => Except.ok []
    pymupdf := fun _ => Except.ok []
    glob_pdfs := fun _ => []
    write_err := fun _ => none }

/-! Helper lemmas about `dropWhile`-based stripping. -/

theorem dropWhile_head_false {p : α → Bool} :
    ∀ {l : List α} {a : α}, (l.dropWhile p).head? = some a → p a = false := by
  intro l
  induction l with
  | nil => intro a h; simp [List.dropWhile] at h
  | cons b t ih =>
      intro a h
      rw [List.dropWhile_cons] at h
      by_cases hb : p b
      · simp [hb] at h; exact ih h
      · simp [hb] at h
        subst h
        simpa using hb

theorem dropWhile_fix {p : α → Bool} {l : List α}
    (h : ∀ a, l.head? = some a → p a = false) : l.dropWhile p = l := by
  cases l with
  | nil => rfl
  | cons b t =>
      rw [List.dropWhile_cons]
      simp [h b rfl]

theorem dropWhile_idem {p : α → Bool} (l : List α) :
    (l.dropWhile p).dropWhile p = l.dropWhile p :=
  dropWhile_fix (fun _ h => dropWhile_head_false h)

theorem stripR_head {p : α → Bool} {l : List α} :
    ((l.reverse.dropWhile p).reverse).head? = l.head? ∨
      (l.reverse.dropWhile p).reverse = [] := by
  cases l with
  | nil => right; rfl
  | cons a t =>
      rw [List.reverse_cons, List.dropWhile_append]
      by_cases he : (t.reverse.dropWhile p).isEmpty
      · simp only [he, if_true]
        by_cases ha : p a
        · right; simp [List.dropWhile, ha]
        · left; simp [List.dropWhile, ha]
      · simp only [he, if_false]
        left
        simp

theorem stripL_idem (l : List Char) : stripL (stripL l) = stripL l :=
  dropWhile_idem l

theorem stripR_idem (l : List Char) : stripR (stripR l) = stripR l := by
  unfold stripR
  rw [List.reverse_reverse, dropWhile_idem]

theorem stripL_stripR (l : List Char) (h : stripL l = l) :
    stripL (stripR l) = stripR l := by
  apply dropWhile_fix
  intro a ha
  rcases (stripR_head (p := isPyWS) (l := l)) with hh | hh
  · rw [show (l.reverse.dropWhile isPyWS).reverse = stripR l from rfl] at hh
    rw [hh] at ha
    have : (stripL l).head? = some a := by rw [h]; exact ha
    exact dropWhile_head_false this
  · rw [show (l.reverse.dropWhile isPyWS).reverse = stripR l from rfl] at hh
    rw [hh] at ha
    simp at ha

/-- Python strip is idempotent, so a string that a strategy already stripped
has no leading or trailing whitespace. -/
theorem pyStrip_idem (s : String) : pyStrip (pyStrip s) = pyStrip s := by
  unfold pyStrip
  have hdata : (String.mk (stripR (stripL s.data))).data =
      stripR (stripL s.data) := rfl
  rw [hdata]
  rw [stripL_stripR (stripL s.data) (stripL_idem s.data), stripR_idem]

/-! Helper lemmas about the auto-mode fallback loop. -/

theorem tryAuto_cons_hit {env : Env} {p mname : String}
    {mfunc : Env → String → Option String × List String} {rest : List _}
    {t : String} (h1 : (mfunc env p).1 = some t)
    (h2 : ((t != "") && (pyStrip t != "")) = true) :
    tryAuto env p ((mname, mfunc) :: rest) =
      (t, ("Trying " ++ mname ++ "...") :: (mfunc env p).2 ++
            ["Successfully extracted text using " ++ mname]) := by
  simp only [tryAuto, h1]
  rw [h2]
  simp

theorem tryAuto_cons_miss {env : Env} {p mname : String}
    {mfunc : Env → String → Option String × List String} {rest : List _}
    (h : pyTruthyText (mfunc env p).1 = false) :
    tryAuto env p ((mname, mfunc) :: rest) =
      ((tryAuto env p rest).1,
        (("Trying " ++ mname ++ "...") :: (mfunc env p).2) ++
          (tryAuto env p rest).2) := by
  rcases hv : (mfunc env p).1 with _ | t
  · simp only [tryAuto, hv]
  · rw [hv] at h
    simp only [pyTruthyText] at h
    simp only [tryAuto, hv]
    rw [h]
    simp

theorem extract_text_auto_exists (env : Env) (p : String)
    (h : env.path_exists p = true) :
    extract_text env p "auto" =
      (Except.ok (some (tryAuto env p auto_methods).1),
       (tryAuto env p auto_methods).2) := by
  unfold extract_text
  simp [h]

theorem pyTruthyText_some {o : Option String} (h : pyTruthyText o = true) :
    ∃ t, o = some t ∧ ((t != "") && (pyStrip t != "")) = true := by
  cases o with
  | none => simp [pyTruthyText] at h
  | some t => exact ⟨t, rfl, by simpa [pyTruthyText] using h⟩

theorem pdfplumber_some_stripped {env : Env} {path t : String}
    (h : (extract_with_pdfplumber env path).1 = some t) : pyStrip t = t := by
  unfold extract_with_pdfplumber at h
  rcases hv : env.pdfplumber path with e | pages
  · rw [hv] at h; simp at h
  · rw [hv] at h
    simp at h
    rw [← h]
    exact pyStrip_idem _

theorem pymupdf_some_stripped {env : Env} {path t : String}
    (h : (extract_with_pymupdf env path).1 = some t) : pyStrip t = t := by
  unfold extract_with_pymupdf at h
  rcases hv : env.pymupdf path with e | pages
  · rw [hv] at h; simp at h
  · rw [hv] at h
    simp at h
    rw [← h]
    exact pyStrip_idem _

theorem pypdf2_some_stripped {env : Env} {path t : String}
    (h : (extract_with_pypdf2 env path).1 = some t) : pyStrip t = t := by
  unfold extract_with_pypdf2 at h
  rcases hv : env.pypdf2 path with e | doc
  · rw [hv] at h; simp at h
  · rw [hv] at h
    simp at h
    rw [← h]
    exact pyStrip_idem _

/-- Joint characterisation of the auto loop over the source's strategy list:
its output is always already stripped, it is the output of the first strategy
whose result passes the truthiness test, and it is the empty string when
every strategy fails that test. -/
theorem tryAuto_char (env : Env) (path : String) :
    pyStrip (tryAuto env path auto_methods).1 =
        (tryAuto env path auto_methods).1 ∧
      (pyTruthyText (extract_with_pdfplumber env path).1 = true →
       some (tryAuto env path auto_methods).1 =
         (extract_with_pdfplumber env path).1) ∧
      (pyTruthyText (extract_with_pdfplumber env path).1 = false →
       pyTruthyText (extract_with_pymupdf env path).1 = true →
       some (tryAuto env path auto_methods).1 =
         (extract_with_pymupdf env path).1) ∧
      (pyTruthyText (extract_with_pdfplumber env path).1 = false →
       pyTruthyText (extract_with_pymupdf env path).1 = false →
       pyTruthyText (extract_with_pypdf2 env path).1 = true →
       some (tryAuto env path auto_methods).1 =
         (extract_with_pypdf2 env path).1) ∧
      (pyTruthyText (extract_with_pdfplumber env path).1 = false →
       pyTruthyText (extract_with_pymupdf env path).1 = false →
       pyTruthyText (extract_with_pypdf2 env path).1 = false →
       (tryAuto env path auto_methods).1 = "") := by
  by_cases c1 : pyTruthyText (extract_with_pdfplumber env path).1 = true
  · obtain ⟨t, hv, hb⟩ := pyTruthyText_some c1
    have e1 : (tryAuto env path auto_methods).1 = t := by
      simp only [auto_methods]
      rw [tryAuto_cons_hit hv hb]
    rw [e1]
    exact ⟨pdfplumber_some_stripped hv,
      fun _ => by rw [hv],
      fun hc _ => absurd c1 (by simp [hc]),
      fun hc _ _ => absurd c1 (by simp [hc]),
      fun hc _ _ => absurd c1 (by simp [hc])⟩
  · have c1' : pyTruthyText (extract_with_pdfplumber env path).1 = false := by
      simpa using c1
    have e1 : (tryAuto env path auto_methods).1 =
        (tryAuto env path
          [("pymupdf", extract_with_pymupdf),
           ("pypdf2", extract_with_pypdf2)]).1 := by
      simp only [auto_methods]
      rw [tryAuto_cons_miss c1']
    by_cases c2 : pyTruthyText (extract_with_pymupdf env path).1 = true
    · obtain ⟨t, hv, hb⟩ := pyTruthyText_some c2
      have e2 : (tryAuto env path
          [("pymupdf", extract_with_pymupdf),
           ("pypdf2", extract_with_pypdf2)]).1 = t := by
        rw [tryAuto_cons_hit hv hb]
      rw [e1, e2]
      exact ⟨pymupdf_some_stripped hv,
        fun hc => absurd hc (by simp [c1']),
        fun _ _ => by rw [hv],
        fun _ hc _ => absurd c2 (by simp [hc]),
        fun _ hc _ => absurd c2 (by simp [hc])⟩
    · have c2' : pyTruthyText (extract_with_pymupdf env path).1 = false := by
        simpa using c2
      have e2 : (tryAuto env path
          [("pymupdf", extract_with_pymupdf),
           ("pypdf2", extract_with_pypdf2)]).1 =
          (tryAuto env path [("pypdf2", extract_with_pypdf2)]).1 := by
        rw [tryAuto_cons_miss c2']
      by_cases c3 : pyTruthyText (extract_with_pypdf2 env path).1 = true
      · obtain ⟨t, hv, hb⟩ := pyTruthyText_some c3
        have e3 : (tryAuto env path
            [("pypdf2", extract_with_pypdf2)]).1 = t := by
          rw [tryAuto_cons_hit hv hb]
        rw [e1, e2, e3]
        exact ⟨pypdf2_some_stripped hv,
          fun hc => absurd hc (by simp [c1']),
          fun _ hc => absurd hc (by simp [c2']),
          fun _ _ _ => by rw [hv],
          fun _ _ hc => absurd c3 (by simp [hc])⟩
      · have c3' : pyTruthyText (extract_with_pypdf2 env path).1 = false := by
          simpa using c3
        have e3 : (tryAuto env path [("pypdf2", extract_with_pypdf2)]).1 =
            (tryAuto env path []).1 := by
          rw [tryAuto_cons_miss c3']
        have e4 : (tryAuto env path ([] :
            List (String × (Env → String → Option String × List String)))).1 =
            "" := rfl
        rw [e1, e2, e3, e4]
        exact ⟨rfl,
          fun hc => absurd hc (by simp [c1']),
          fun _ hc => absurd hc (by simp [c2']),
          fun _ _ hc => absurd hc (by simp [c3']),
          fun _ _ _ => rfl⟩

/-! Helper lemmas about the batch driver. -/

theorem batch_foldl (env : Env) (dir : String) (outdir : Option String) :
    ∀ (l : List String) (acc : BatchOutcome), l.Nodup →
      (∀ g ∈ l, acc.results.any (fun q => q.1 == g) = false) →
      l.foldl (batch_step env dir outdir) acc =
        { results := acc.results ++
            l.map (fun g => (g, (process_pdf_file env dir outdir g).1)),
          written := acc.written ++
            l.flatMap (fun g => (process_pdf_file env dir outdir g).2.1),
          madeOutputDir := acc.madeOutputDir,
          log := acc.log ++
            l.flatMap (fun g => (process_pdf_file env dir outdir g).2.2) } := by
  intro l
  induction l with
  | nil => intro acc _ _; simp
  | cons g rest ih =>
      intro acc hnd hany
      have hg : acc.results.any (fun q => q.1 == g) = false :=
        hany g (List.mem_cons_self g rest)
      have hstep : batch_step env dir outdir acc g =
          { results := acc.results ++
              [(g, (process_pdf_file env dir outdir g).1)],
            written := acc.written ++ (process_pdf_file env dir outdir g).2.1,
            madeOutputDir := acc.madeOutputDir,
            log := acc.log ++ (process_pdf_file env dir outdir g).2.2 } := by
        simp [batch_step, dictSet, hg]
      rw [List.foldl_cons, hstep]
      rw [ih _ (List.Nodup.of_cons hnd) ?_]
      · simp [List.append_assoc]
      · intro g' hg'
        have hne : (g == g') = false := by
          have : g ≠ g' := by
            intro hEq
            subst hEq
            exact (List.nodup_cons.mp hnd).1 hg'
          simpa using this
        simp only [List.any_append, hany g' (List.mem_cons_of_mem g hg')]
        simp [hne]

theorem batch_results (env : Env) (dir : String) (outdir : Option String)
    (h : (env.glob_pdfs dir).Nodup) :
    (extract_from_directory env dir outdir).results =
      (env.glob_pdfs dir).map
        (fun g => (g, (process_pdf_file env dir outdir g).1)) := by
  unfold extract_from_directory
  rw [batch_foldl env dir outdir _ _ h (by intro g _; simp)]
  simp

theorem batch_written (env : Env) (dir : String) (outdir : Option String)
    (h : (env.glob_pdfs dir).Nodup) :
    (extract_from_directory env dir outdir).written =
      (env.glob_pdfs dir).flatMap
        (fun g => (process_pdf_file env dir outdir g).2.1) := by
  unfold extract_from_directory
  rw [batch_foldl env dir outdir _ _ h (by intro g _; simp)]
  simp

theorem batch_log (env : Env) (dir : String) (outdir : Option String)
    (h : (env.glob_pdfs dir).Nodup) :
    (extract_from_directory env dir outdir).log =
      (env.glob_pdfs dir).flatMap
        (fun g => (process_pdf_file env dir outdir g).2.2) := by
  unfold extract_from_directory
  rw [batch_foldl env dir outdir _ _ h (by intro g _; simp)]
  simp

theorem batch_madeOutputDir (env : Env) (dir : String)
    (outdir : Option String) (h : (env.glob_pdfs dir).Nodup) :
    (extract_from_directory env dir outdir).madeOutputDir =
      outdir.isSome := by
  unfold extract_from_directory
  rw [batch_foldl env dir outdir _ _ h (by intro g _; simp)]

theorem lookup_pair_map {f : String → Option String} :
    ∀ {l : List String} {a : String}, a ∈ l →
      (l.map (fun g => (g, f g))).lookup a = some (f a) := by
  intro l
  induction l with
  | nil => intro a h; simp at h
  | cons b rest ih =>
      intro a h
      rcases List.mem_cons.mp h with hEq | hmem
      · subst hEq
        simp [List.lookup]
      · by_cases hab : a = b
        · subst hab
          simp [List.lookup]
        · have : (a == b) = false := by simpa using hab
          simp [List.lookup, this, ih hmem]

theorem process_fail {env : Env} {dir fname : String}
    {outdir : Option String} {e : PyErr}
    (hfail : (extract_text env (dir ++ "/" ++ fname) "auto").1 =
      Except.error e) :
    (process_pdf_file env dir outdir fname).1 = some "" ∧
    ("Failed to process " ++ fname ++ ": " ++ e.msg) ∈
      (process_pdf_file env dir outdir fname).2.2 := by
  unfold process_pdf_file
  simp [hfail]

theorem process_ok_written {env : Env} {dir d fname t : String}
    (hok : (extract_text env (dir ++ "/" ++ fname) "auto").1 =
      Except.ok (some t))
    (hw : env.write_err (d ++ "/" ++ pyStem fname ++ ".txt") = none) :
    (process_pdf_file env dir (some d) fname).1 = some t ∧
    (d ++ "/" ++ pyStem fname ++ ".txt", t) ∈
      (process_pdf_file env dir (some d) fname).2.1 := by
  unfold process_pdf_file
  simp [hok, hw]

/-! Claim theorems. -/

/-- C1 (amended): for every existing file, `extract_text` in auto mode tries
the strategies in the fixed priority order pdfplumber, then pymupdf, then
pypdf2, and returns the first result whose trimmed output is non-empty; which
strategy succeeded is reported in the printed log (`Successfully extracted
text using ...`), not recorded in the returned result. -/
theorem auto_tries_strategies_in_order (env : Env) (path : String)
    (h : env.path_exists path = true) :
    (pyTruthyText (extract_with_pdfplumber env path).1 = true →
      (extract_text env path "auto").1 =
          Except.ok (extract_with_pdfplumber env path).1 ∧
        "Successfully extracted text using pdfplumber" ∈
          (extract_text env path "auto").2) ∧
    (pyTruthyText (extract_with_pdfplumber env path).1 = false →
     pyTruthyText (extract_with_pymupdf env path).1 = true →
      (extract_text env path "auto").1 =
          Except.ok (extract_with_pymupdf env path).1 ∧
        "Successfully extracted text using pymupdf" ∈
          (extract_text env path "auto").2) ∧
    (pyTruthyText (extract_with_pdfplumber env path).1 = false →
     pyTruthyText (extract_with_pymupdf env path).1 = false →
     pyTruthyText (extract_with_pypdf2 env path).1 = true →
      (extract_text env path "auto").1 =
          Except.ok (extract_with_pypdf2 env path).1 ∧
        "Successfully extracted text using pypdf2" ∈
          (extract_text env path "auto").2) := by
  have he := extract_text_auto_exists env path h
  refine ⟨?_, ?_, ?_⟩
  · intro c1
    obtain ⟨t, hv, hb⟩ := pyTruthyText_some c1
    have e1 : tryAuto env path auto_methods =
        (t, ("Trying pdfplumber...") :: (extract_with_pdfplumber env path).2 ++
          ["Successfully extracted text using pdfplumber"]) := by
      simp only [auto_methods]
      exact tryAuto_cons_hit hv hb
    constructor
    · rw [he, hv]
      simp [e1]
    · rw [he]
      simp [e1]
  · intro c1 c2
    obtain ⟨t, hv, hb⟩ := pyTruthyText_some c2
    have e1 : tryAuto env path auto_methods =
        ((tryAuto env path
            [("pymupdf", extract_with_pymupdf),
             ("pypdf2", extract_with_pypdf2)]).1,
          (("Trying pdfplumber...") :: (extract_with_pdfplumber env path).2) ++
            (tryAuto env path
              [("pymupdf", extract_with_pymupdf),
               ("pypdf2", extract_with_pypdf2)]).2) := by
      simp only [auto_methods]
      exact tryAuto_cons_miss c1
    have e2 : tryAuto env path
        [("pymupdf", extract_with_pymupdf),
         ("pypdf2", extract_with_pypdf2)] =
        (t, ("Trying pymupdf...") :: (extract_with_pymupdf env path).2 ++
          ["Successfully extracted text using pymupdf"]) := by
      exact tryAuto_cons_hit hv hb
    constructor
    · rw [he, hv]
      simp [e1, e2]
    · rw [he]
      simp [e1, e2]
  · intro c1 c2 c3
    obtain ⟨t, hv, hb⟩ := pyTruthyText_some c3
    have e1 : tryAuto env path auto_methods =
        ((tryAuto env path
            [("pymupdf", extract_with_pymupdf),
             ("pypdf2", extract_with_pypdf2)]).1,
          (("Trying pdfplumber...") :: (extract_with_pdfplumber env path).2) ++
            (tryAuto env path
              [("pymupdf", extract_with_pymupdf),
               ("pypdf2", extract_with_pypdf2)]).2) := by
      simp only [auto_methods]
      exact tryAuto_cons_miss c1
    have e2 : tryAuto env path
        [("pymupdf", extract_with_pymupdf),
         ("pypdf2", extract_with_pypdf2)] =
        ((tryAuto env path [("pypdf2", extract_with_pypdf2)]).1,
          (("Trying pymupdf...") :: (extract_with_pymupdf env path).2) ++
            (tryAuto env path [("pypdf2", extract_with_pypdf2)]).2) := by
      exact tryAuto_cons_miss c2
    have e3 : tryAuto env path [("pypdf2", extract_with_pypdf2)] =
        (t, ("Trying pypdf2...") :: (extract_with_pypdf2 env path).2 ++
          ["Successfully extracted text using pypdf2"]) := by
      exact tryAuto_cons_hit hv hb
    constructor
    · rw [he, hv]
      simp [e1, e2, e3]
    · rw [he]
      simp [e1, e2, e3]

/-- C1 counterexample: two runs that return identical results while different
strategies succeeded (pdfplumber in `envA`, pymupdf in `envB`), so the
returned result of auto mode cannot record which strategy succeeded — the
strategy name appears only in the printed log. -/
theorem auto_result_forgets_strategy :
    (extract_text envA "a.pdf" "auto").1 =
      (extract_text envB "a.pdf" "auto").1 ∧
    "Successfully extracted text using pdfplumber" ∈
      (extract_text envA "a.pdf" "auto").2 ∧
    "Successfully extracted text using pymupdf" ∈
      (extract_text envB "a.pdf" "auto").2 :=
  ⟨rfl, by decide, by decide⟩

/-- C1 witness: in `envA` the first strategy (pdfplumber) is truthy and auto
mode returns its output, logging its success. -/
theorem auto_tries_strategies_in_order_witness :
    envA.path_exists "a.pdf" = true ∧
    pyTruthyText (extract_with_pdfplumber envA "a.pdf").1 = true ∧
    ((extract_text envA "a.pdf" "auto").1 =
        Except.ok (extract_with_pdfplumber envA "a.pdf").1 ∧
      "Successfully extracted text using pdfplumber" ∈
        (extract_text envA "a.pdf" "auto").2) :=
  ⟨rfl, by decide,
    (auto_tries_strategies_in_order envA "a.pdf" rfl).1 (by decide)⟩

/-- C2 (amended): a failure while processing one document is caught and
recorded in the returned mapping as an empty-text entry, the failure reason
is printed to the log (not stored in the mapping), and processing of the
remaining documents continues: every globbed document keeps an entry. -/
theorem batch_catches_failures (env : Env) (dir : String)
    (outdir : Option String) (fname : String) (e : PyErr)
    (h : (env.glob_pdfs dir).Nodup)
    (hmem : fname ∈ env.glob_pdfs dir)
    (hfail : (extract_text env (dir ++ "/" ++ fname) "auto").1 =
      Except.error e) :
    (extract_from_directory env dir outdir).results.lookup fname =
        some (some "") ∧
      ("Failed to process " ++ fname ++ ": " ++ e.msg) ∈
        (extract_from_directory env dir outdir).log ∧
      ∀ g ∈ env.glob_pdfs dir, ∃ v,
        (extract_from_directory env dir outdir).results.lookup g = some v := by
  refine ⟨?_, ?_, ?_⟩
  · rw [batch_results env dir outdir h, lookup_pair_map hmem,
      (process_fail hfail).1]
  · rw [batch_log env dir outdir h]
    exact List.mem_flatMap.mpr ⟨fname, hmem, (process_fail hfail).2⟩
  · intro g hg
    rw [batch_results env dir outdir h, lookup_pair_map hg]
    exact ⟨_, rfl⟩

/-- C2 counterexample: in `envD`, `bad.pdf` fails (FileNotFoundError is
caught) and `empty.pdf` succeeds with empty text, yet both receive the same
mapping entry `""` — the failed document carries no stored failure reason and
is not distinguishable from the successful empty one. -/
theorem batch_failure_indistinguishable :
    (extract_text envD "pdfs/bad.pdf" "auto").1 =
      Except.error (PyErr.fileNotFound "PDF file not found: pdfs/bad.pdf") ∧
    (extract_text envD "pdfs/empty.pdf" "auto").1 = Except.ok (some "") ∧
    (extract_from_directory envD "pdfs" none).results =
      [("bad.pdf", some ""), ("empty.pdf", some "")] :=
  ⟨rfl, rfl, rfl⟩

/-- C2 witness: the failing `bad.pdf` of `envD` is caught, recorded as the
empty string, the reason is printed, and both documents keep entries. -/
theorem batch_catches_failures_witness :
    (envD.glob_pdfs "pdfs").Nodup ∧
    "bad.pdf" ∈ envD.glob_pdfs "pdfs" ∧
    (extract_text envD ("pdfs" ++ "/" ++ "bad.pdf") "auto").1 =
      Except.error (PyErr.fileNotFound "PDF file not found: pdfs/bad.pdf") ∧
    ((extract_from_directory envD "pdfs" none).results.lookup "bad.pdf" =
        some (some "") ∧
      ("Failed to process " ++ "bad.pdf" ++ ": " ++
          (PyErr.fileNotFound "PDF file not found: pdfs/bad.pdf").msg) ∈
        (extract_from_directory envD "pdfs" none).log ∧
      ∀ g ∈ envD.glob_pdfs "pdfs", ∃ v,
        (extract_from_directory envD "pdfs" none).results.lookup g = some v) :=
  ⟨by decide, by decide, rfl,
    batch_catches_failures envD "pdfs" none "bad.pdf"
      (PyErr.fileNotFound "PDF file not found: pdfs/bad.pdf")
      (by decide) (by decide) rfl⟩

/-- C3 (amended): with the default method `auto`, `extract_text` either
returns a string (possibly empty) or raises `FileNotFoundError` for a missing
file; with an explicit library method it can instead return `None` when the
library fails (see the counterexample). -/
theorem extract_text_auto_string_or_raises (env : Env) (path : String) :
    (env.path_exists path = false →
      (extract_text env path "auto").1 =
        Except.error (PyErr.fileNotFound ("PDF file not found: " ++ path))) ∧
    (env.path_exists path = true →
      ∃ s : String, (extract_text env path "auto").1 = Except.ok (some s)) := by
  constructor
  · intro h
    simp [extract_text, h]
  · intro h
    exact ⟨(tryAuto env path auto_methods).1,
      by rw [extract_text_auto_exists env path h]⟩

/-- C3 counterexample: on an existing file whose PyPDF2 read raises,
`extract_text(path, method='pypdf2')` returns `None` (`Except.ok none`): the
claim that every call returns a string or raises is false. -/
theorem explicit_method_returns_none :
    envB.path_exists "a.pdf" = true ∧
    (extract_text envB "a.pdf" "pypdf2").1 = Except.ok none :=
  ⟨rfl, rfl⟩

/-- C3 witness: a missing file raises `FileNotFoundError`; an existing file
in auto mode yields a string. -/
theorem extract_text_auto_string_or_raises_witness :
    (envB.path_exists "missing.pdf" = false ∧
      (extract_text envB "missing.pdf" "auto").1 =
        Except.error
          (PyErr.fileNotFound ("PDF file not found: " ++ "missing.pdf"))) ∧
    (envA.path_exists "a.pdf" = true ∧
      ∃ s : String, (extract_text envA "a.pdf" "auto").1 =
        Except.ok (some s)) :=
  ⟨⟨rfl, (extract_text_auto_string_or_raises envB "missing.pdf").1 rfl⟩,
   ⟨rfl, (extract_text_auto_string_or_raises envA "a.pdf").2 rfl⟩⟩

/-- C4: the mapping returned by `extract_from_directory` is keyed by filename
and has exactly one entry per globbed PDF, in glob order, whether the
document's extraction succeeded or failed. -/
theorem batch_one_entry_per_pdf (env : Env) (dir : String)
    (outdir : Option String) (h : (env.glob_pdfs dir).Nodup) :
    (extract_from_directory env dir outdir).results.map Prod.fst =
      env.glob_pdfs dir := by
  rw [batch_results env dir outdir h, List.map_map]
  exact List.map_id _

/-- C4 witness: both documents of `envD`, the failing and the successful one,
have exactly one entry each. -/
theorem batch_one_entry_per_pdf_witness :
    (envD.glob_pdfs "pdfs").Nodup ∧
    (extract_from_directory envD "pdfs" none).results.map Prod.fst =
      envD.glob_pdfs "pdfs" :=
  ⟨by decide, batch_one_entry_per_pdf envD "pdfs" none (by decide)⟩

/-- C5 (amended): when an output directory is configured, the directory is
created and the text of each successfully extracted result is written to
`outputdir/stem.txt`; documents whose processing raised an exception keep a
mapping entry but get no output file (see the counterexample). -/
theorem batch_writes_successful_results (env : Env) (dir d fname t : String)
    (h : (env.glob_pdfs dir).Nodup)
    (hmem : fname ∈ env.glob_pdfs dir)
    (hok : (extract_text env (dir ++ "/" ++ fname) "auto").1 =
      Except.ok (some t))
    (hw : env.write_err (d ++ "/" ++ pyStem fname ++ ".txt") = none) :
    (extract_from_directory env dir (some d)).madeOutputDir = true ∧
      (d ++ "/" ++ pyStem fname ++ ".txt", t) ∈
        (extract_from_directory env dir (some d)).written ∧
      (extract_from_directory env dir (some d)).results.lookup fname =
        some (some t) := by
  refine ⟨?_, ?_, ?_⟩
  · rw [batch_madeOutputDir env dir (some d) h]
    rfl
  · rw [batch_written env dir (some d) h]
    exact List.mem_flatMap.mpr ⟨fname, hmem, (process_ok_written hok hw).2⟩
  · rw [batch_results env dir (some d) h, lookup_pair_map hmem,
      (process_ok_written hok hw).1]

/-- C5 counterexample: in `envD` with an output directory, the returned
mapping has two entries but only one output file is written — the failed
`bad.pdf` has a result in the mapping and no corresponding file, so "one file
per input document" fails. -/
theorem batch_failed_doc_not_written :
    (extract_from_directory envD "pdfs" (some "out")).results =
      [("bad.pdf", some ""), ("empty.pdf", some "")] ∧
    (extract_from_directory envD "pdfs" (some "out")).written =
      [("out/empty.txt", "")] :=
  ⟨rfl, rfl⟩

/-- C5 witness: the successful `empty.pdf` of `envD` is written to
`out/empty.txt` and kept in the mapping, and the directory creation is
performed. -/
theorem batch_writes_successful_results_witness :
    (envD.glob_pdfs "pdfs").Nodup ∧
    "empty.pdf" ∈ envD.glob_pdfs "pdfs" ∧
    (extract_text envD ("pdfs" ++ "/" ++ "empty.pdf") "auto").1 =
      Except.ok (some "") ∧
    envD.write_err ("out" ++ "/" ++ pyStem "empty.pdf" ++ ".txt") = none ∧
    ((extract_from_directory envD "pdfs" (some "out")).madeOutputDir = true ∧
      ("out" ++ "/" ++ pyStem "empty.pdf" ++ ".txt", "") ∈
        (extract_from_directory envD "pdfs" (some "out")).written ∧
      (extract_from_directory envD "pdfs" (some "out")).results.lookup
        "empty.pdf" = some (some "")) :=
  ⟨by decide, by decide, rfl, rfl,
    batch_writes_successful_results envD "pdfs" "out" "empty.pdf" ""
      (by decide) (by decide) rfl rfl⟩

/-- C6: for every readable document, `get_pdf_info` returns metadata holding
the page count, and the title, author and producer whenever they are present
in the Info dictionary, by plain dictionary lookups. -/
theorem get_pdf_info_reports_metadata (env : Env) (path : String)
    (doc : PyPdfDoc) (h : env.pypdf2 path = Except.ok doc) :
    ∃ info : PdfInfo, (get_pdf_info env path).1 = some info ∧
      info.num_pages = doc.pages.length ∧
      ∀ m, doc.metadata = some m →
        (∀ t, m.lookup "/Title" = some t → info.title = t) ∧
        (∀ a, m.lookup "/Author" = some a → info.author = a) ∧
        (∀ pr, m.lookup "/Producer" = some pr → info.producer = pr) := by
  refine ⟨{ num_pages := doc.pages.length,
            title := metaGet doc.metadata "/Title",
            author := metaGet doc.metadata "/Author",
            subject := metaGet doc.metadata "/Subject",
            creator := metaGet doc.metadata "/Creator",
            producer := metaGet doc.metadata "/Producer" }, ?_, rfl, ?_⟩
  · unfold get_pdf_info
    rw [h]
  · intro m hm
    refine ⟨?_, ?_, ?_⟩ <;> intro x hx <;> simp [metaGet, hm, hx]

/-- C6 witness: the one-page document of `envE` reports its page count,
title, author and producer. -/
theorem get_pdf_info_reports_metadata_witness :
    envE.pypdf2 "x.pdf" = Except.ok
      ⟨["page one"],
        some [("/Title", "T"), ("/Author", "A"), ("/Producer", "P")]⟩ ∧
    ∃ info : PdfInfo, (get_pdf_info envE "x.pdf").1 = some info ∧
      info.num_pages =
        (["page one"] : List String).length ∧
      ∀ m, (some [("/Title", "T"), ("/Author", "A"), ("/Producer", "P")] :
          Option (List (String × String))) = some m →
        (∀ t, m.lookup "/Title" = some t → info.title = t) ∧
        (∀ a, m.lookup "/Author" = some a → info.author = a) ∧
        (∀ pr, m.lookup "/Producer" = some pr → info.producer = pr) :=
  ⟨rfl, get_pdf_info_reports_metadata envE "x.pdf"
    ⟨["page one"], some [("/Title", "T"), ("/Author", "A"), ("/Producer", "P")]⟩
    rfl⟩

/-- C7 (spec-modelled): for every well-formed minimal PDF — a single page
with a single uncompressed content stream containing one `Tj` operator — the
extracted text equals the literal string operand of that `Tj` exactly. -/
theorem minimal_pdf_tj_exact (s : String) :
    extractPageText (minimalPDF s) = s := by
  simp [extractPageText, minimalPDF, interpretContent]

/-- C8: auto mode over an existing file is total over library outcomes: it
always returns a string — the output of the first strategy (in the order
pdfplumber, pymupdf, pypdf2) whose result is non-empty after trimming, or the
empty string when all three strategies fail — and the returned string is
already stripped, so a non-empty result has no leading or trailing
whitespace. -/
theorem extract_text_auto_total_stripped (env : Env) (path : String)
    (h : env.path_exists path = true) :
    ∃ s : String, (extract_text env path "auto").1 = Except.ok (some s) ∧
      pyStrip s = s ∧
      (pyTruthyText (extract_with_pdfplumber env path).1 = true →
        some s = (extract_with_pdfplumber env path).1) ∧
      (pyTruthyText (extract_with_pdfplumber env path).1 = false →
       pyTruthyText (extract_with_pymupdf env path).1 = true →
        some s = (extract_with_pymupdf env path).1) ∧
      (pyTruthyText (extract_with_pdfplumber env path).1 = false →
       pyTruthyText (extract_with_pymupdf env path).1 = false →
       pyTruthyText (extract_with_pypdf2 env path).1 = true →
        some s = (extract_with_pypdf2 env path).1) ∧
      (pyTruthyText (extract_with_pdfplumber env path).1 = false →
       pyTruthyText (extract_with_pymupdf env path).1 = false →
       pyTruthyText (extract_with_pypdf2 env path).1 = false → s = "") := by
  refine ⟨(tryAuto env path auto_methods).1,
    by rw [extract_text_auto_exists env path h],
    (tryAuto_char env path).1,
    (tryAuto_char env path).2.1,
    (tryAuto_char env path).2.2.1,
    (tryAuto_char env path).2.2.2.1,
    (tryAuto_char env path).2.2.2.2⟩

/-- C8 witness: `envA`'s `a.pdf` yields a stripped string that is the first
truthy strategy's output. -/
theorem extract_text_auto_total_stripped_witness :
    envA.path_exists "a.pdf" = true ∧
    ∃ s : String, (extract_text envA "a.pdf" "auto").1 =
        Except.ok (some s) ∧
      pyStrip s = s ∧
      (pyTruthyText (extract_with_pdfplumber envA "a.pdf").1 = true →
        some s = (extract_with_pdfplumber envA "a.pdf").1) ∧
      (pyTruthyText (extract_with_pdfplumber envA "a.pdf").1 = false →
       pyTruthyText (extract_with_pymupdf envA "a.pdf").1 = true →
        some s = (extract_with_pymupdf envA "a.pdf").1) ∧
      (pyTruthyText (extract_with_pdfplumber envA "a.pdf").1 = false →
       pyTruthyText (extract_with_pymupdf envA "a.pdf").1 = false →
       pyTruthyText (extract_with_pypdf2 envA "a.pdf").1 = true →
        some s = (extract_with_pypdf2 envA "a.pdf").1) ∧
      (pyTruthyText (extract_with_pdfplumber envA "a.pdf").1 = false →
       pyTruthyText (extract_with_pymupdf envA "a.pdf").1 = false →
       pyTruthyText (extract_with_pypdf2 envA "a.pdf").1 = false → s = "") :=
  ⟨rfl, extract_text_auto_total_stripped envA "a.pdf" rfl⟩

/-- C9: the existence check runs first, so a missing file raises
`FileNotFoundError` for every method argument, valid or not; on an existing
file, a method outside the supported set raises `ValueError` naming it. -/
theorem extract_text_validates_input (env : Env) (path method : String) :
    (env.path_exists path = false →
      (extract_text env path method).1 =
        Except.error (PyErr.fileNotFound ("PDF file not found: " ++ path))) ∧
    (env.path_exists path = true →
      method ∉ (["auto", "pypdf2", "pdfplumber", "pymupdf"] : List String) →
      (extract_text env path method).1 =
        Except.error (PyErr.valueError ("Unsupported method: " ++ method))) := by
  constructor
  · intro h
    simp [extract_text, h]
  · intro h hm
    have h1 : ¬(method = "auto") := fun hh => hm (by simp [hh])
    have h2 : ¬(method = "pypdf2") := fun hh => hm (by simp [hh])
    have h3 : ¬(method = "pdfplumber") := fun hh => hm (by simp [hh])
    have h4 : ¬(method = "pymupdf") := fun hh => hm (by simp [hh])
    simp [extract_text, h, h1, h2, h3, h4]

/-- C9 witness: a missing file raises `FileNotFoundError` even with the
invalid method `html`; an existing file with method `html` raises
`ValueError` naming it. -/
theorem extract_text_validates_input_witness :
    (envB.path_exists "missing.pdf" = false ∧
      (extract_text envB "missing.pdf" "html").1 =
        Except.error
          (PyErr.fileNotFound ("PDF file not found: " ++ "missing.pdf"))) ∧
    (envA.path_exists "a.pdf" = true ∧
      "html" ∉ (["auto", "pypdf2", "pdfplumber", "pymupdf"] : List String) ∧
      (extract_text envA "a.pdf" "html").1 =
        Except.error (PyErr.valueError ("Unsupported method: " ++ "html"))) :=
  ⟨⟨rfl, (extract_text_validates_input envB "missing.pdf" "html").1 rfl⟩,
   ⟨rfl, by decide,
     (extract_text_validates_input envA "a.pdf" "html").2 rfl (by decide)⟩⟩

/-- C10: each of the three library wrappers catches every exception of its
`try` block and returns `None` exactly in that case; being total functions of
the modelled library outcome, they never propagate an exception. -/
theorem wrappers_return_none_iff_exception (env : Env) (path : String) :
    ((extract_with_pypdf2 env path).1 = none ↔
      ∃ e, env.pypdf2 path = Except.error e) ∧
    ((extract_with_pdfplumber env path).1 = none ↔
      ∃ e, env.pdfplumber path = Except.error e) ∧
    ((extract_with_pymupdf env path).1 = none ↔
      ∃ e, env.pymupdf path = Except.error e) := by
  refine ⟨?_, ?_, ?_⟩
  · rcases hv : env.pypdf2 path with e | doc <;>
      simp [extract_with_pypdf2, hv]
  · rcases hv : env.pdfplumber path with e | pages <;>
      simp [extract_with_pdfplumber, hv]
  · rcases hv : env.pymupdf path with e | pages <;>
      simp [extract_with_pymupdf, hv]

end AKU
